import Mathlib

/-!
Shallow embedding of the caching, indexing and ranking core of the
music-discovery backend (source files `firebase/db_ops.py`,
`recommender/engine.py`, `services/saavn.py`, `cache/store.py`).

Modelling conventions:
* Python dicts holding heterogeneous JSON-like data are modelled by the
  inductive `JVal`; a dict is an association list `List (String × JVal)`
  looked up with `List.lookup` (keys are unique in all dicts the code
  builds, so first-match lookup coincides with dict lookup).
* The Firebase key-value store is passed in explicitly as a function from
  keys to `Option` values; `none` models an absent node.  Python truthiness
  of a fetched value (`if data:`) is modelled by `jTruthy` where the fetched
  value is a `JVal`, and by `List.isEmpty` for lists.
* Timestamps are `Int` (Python uses real-valued `time.time()`; every claim
  about freshness is stated at integer ages, and the comparisons in the
  code are order comparisons, so the integer model is faithful for them).
* Python float arithmetic on the boost constants `1.0, 3.0, 1.5` is exact
  (all products are small dyadic rationals), so boosts and scores are
  modelled in `ℚ`.
* String operations from Python (`lower`, `strip`, `replace` of a
  single-character pattern, slicing `[:n]`) are modelled on `List Char`
  (`pyLower`, `pyStrip`, `pyReplaceAll`, `List.take`), mirroring their
  Python semantics character by character; in particular `pyStrip` strips
  the full set of characters Python's `str.strip()` removes
  (`pyIsWhitespace`), not just ASCII space/tab/CR/LF.
-/

/-- JSON-like values stored in the key-value store and inside song dicts. -/
inductive JVal where
  | jstr  : String → JVal
  | jnum  : Int → JVal
  | jbool : Bool → JVal
  | jarr  : List JVal → JVal
  | jobj  : List (String × JVal) → JVal

/-- Python truthiness of a JSON-like value (`if data:`). -/
def jTruthy : JVal → Bool
  | .jstr s  => !s.isEmpty
  | .jnum n  => n != 0
  | .jbool b => b
  | .jarr l  => !l.isEmpty
  | .jobj l  => !l.isEmpty

/-- `s.lower()` on a character list (ASCII letters, as in `Char.toLower`). -/
def pyLower (s : List Char) : List Char := s.map Char.toLower

/-- The set of characters Python's `str.strip()` (and `str.isspace()`)
treats as whitespace: `\t \n \x0b \x0c \r` (0x09-0x0D), the separators
0x1C-0x1F, space, 0x85 (NEL), 0xA0 (NBSP), 0x1680 (Ogham space mark),
0x2000-0x200A (typographic spaces), 0x2028/0x2029 (line/paragraph
separator), 0x202F, 0x205F and 0x3000 (ideographic space). -/
def pyIsWhitespace (c : Char) : Bool :=
  (9 ≤ c.toNat && c.toNat ≤ 13) || (28 ≤ c.toNat && c.toNat ≤ 31) ||
    c.toNat = 32 || c.toNat = 133 || c.toNat = 160 || c.toNat = 5760 ||
    (8192 ≤ c.toNat && c.toNat ≤ 8202) || c.toNat = 8232 || c.toNat = 8233 ||
    c.toNat = 8239 || c.toNat = 8287 || c.toNat = 12288

/-- `s.strip()` on a character list: drop Python whitespace from both ends. -/
def pyStrip (s : List Char) : List Char :=
  ((s.dropWhile pyIsWhitespace).reverse.dropWhile pyIsWhitespace).reverse

/-- `s.replace(a, b)` for single-character `a`, `b`: a character map. -/
def pyReplaceAll (a b : Char) (s : List Char) : List Char :=
  s.map fun c => if c = a then b else c

/-- `normalize_query` from `firebase/db_ops.py` (also inlined in
`cache_get`): `q.lower().strip().replace("/", "_").replace(".", "_")[:100]`. -/
def normalize_query (q : String) : String :=
  String.mk ((pyReplaceAll '.' '_' (pyReplaceAll '/' '_' (pyStrip (pyLower q.data)))).take 100)

/-- A stored `search_index/{key}` node: `{"song_ids": [...], "timestamp": t}`. -/
structure QueryCacheEntry where
  song_ids  : List String
  timestamp : Int
deriving DecidableEq

/-- `cache_get` from `firebase/db_ops.py`.  `searchIndex` is the
`search_index/` subtree of the store, `songs` the `songs/` subtree
(`none` for an absent node, and a present song dict is kept only when
truthy, mirroring `if song_meta:`).  Returns the rehydrated hit or `none`. -/
def cache_get (now : Int) (searchIndex : String → Option QueryCacheEntry)
    (songs : String → Option JVal) (query : String) (ttl_seconds : Int) :
    Option (List JVal) :=
  match searchIndex (normalize_query query) with
  | none => none
  | some data =>
    if now - data.timestamp < ttl_seconds then
      if data.song_ids.isEmpty then some []
      else
        let results := data.song_ids.filterMap fun sid =>
          match songs sid with
          | some song_meta => if jTruthy song_meta then some song_meta else none
          | none => none
        if results.isEmpty then none else some results
    else none

/-- A stored generic-cache node: `{"results": v, "timestamp": t}`. -/
structure GenericCacheEntry (α : Type) where
  results   : α
  timestamp : Int

/-- Key normalization of `generic_cache_get`/`generic_cache_set`:
`key.replace("/", "_").replace(".", "_")[:100]` (no lowercasing, no strip). -/
def generic_safe_key (key : String) : String :=
  String.mk ((pyReplaceAll '.' '_' (pyReplaceAll '/' '_' key.data)).take 100)

/-- `generic_cache_get` from `firebase/db_ops.py`.  `node` is the cache
subtree for the given namespace. -/
def generic_cache_get {α : Type} (now : Int) (node : String → Option (GenericCacheEntry α))
    (key : String) (ttl_seconds : Int) : Option α :=
  match node (generic_safe_key key) with
  | none => none
  | some data =>
    if now - data.timestamp < ttl_seconds then some data.results else none

/-- All take-`(i+1)` initial segments of a word, i.e. `word[:i]` for
`i in range(1, len(word) + 1)` in `generate_prefixes`. -/
def initialSegments (w : List Char) : List (List Char) :=
  (List.range w.length).map fun i => w.take (i + 1)

/-- `generate_prefixes` from `firebase/db_ops.py`: lowercase, drop characters
outside `[a-zA-Z0-9\s]`, split into whitespace-separated words, and collect
every initial segment of every word plus every initial segment of the
concatenated phrase.  The Python function returns `list(set)`; the set only
collapses duplicates, so membership in this list coincides with membership
in the Python result. -/
def generate_prefixes (text : String) : List (List Char) :=
  if text.isEmpty then []
  else
    let t := (text.data.map Char.toLower).filter fun c => c.isAlphanum || c.isWhitespace
    let words := (t.splitOnP Char.isWhitespace).filter fun w => !w.isEmpty
    (words.map initialSegments).flatten ++ initialSegments words.flatten

/-- `index_song_for_search` from `firebase/db_ops.py`, modelled as the list
of writes it performs: each pair `(p, song_id)` stands for the write of
`prefix_index/{p}/{song_id} = True`.  The `if len(p) < 2: continue` guard
becomes the filter. -/
def index_song_for_search (song_id title artist : String) : List (List Char × String) :=
  let all_prefixes := generate_prefixes title ++ generate_prefixes artist
  (all_prefixes.filter fun p => !decide (p.length < 2)).map fun p => (p, song_id)

/-- A per-user recommendation snapshot: an opaque bundle body plus the
`updatedAt` stamp read by the staleness check. -/
structure RecBundle (α : Type) where
  body      : α
  updatedAt : Int
deriving DecidableEq

/-- `store_recommendations` from `firebase/db_ops.py`: stamps `updatedAt`
with the current time and overwrites `users/{uid}/recommendations` with the
whole bundle.  Returns the value written. -/
def store_recommendations {α : Type} (now : Int) (recommendations : RecBundle α) :
    RecBundle α :=
  { recommendations with updatedAt := now }

/-- `get_recommendations` from `recommender/engine.py`.  `stored` is the
current `users/{uid}/recommendations` node (`none` for absent), `freshGen`
the bundle `generate_fresh_recommendations` would produce on this call.
Returns the bundle served to the caller together with the snapshot node
after the call. -/
def get_recommendations {α : Type} (now : Int) (stored : Option (RecBundle α))
    (freshGen : RecBundle α) (force_refresh : Bool) :
    RecBundle α × Option (RecBundle α) :=
  match force_refresh, stored with
  | false, some s =>
    if now - s.updatedAt < 1800 then (s, some s)
    else
      let recs := store_recommendations now freshGen
      (recs, some recs)
  | _, _ =>
    let recs := store_recommendations now freshGen
    (recs, some recs)

/-- Python's substring test `needle in hay` on character lists. -/
def isSubstringOf (needle : List Char) : List Char → Bool
  | [] => needle.isEmpty
  | c :: t => needle.isPrefixOf (c :: t) || isSubstringOf needle t

/-- The fields of a slimmed candidate song that the filter-and-boost loop of
`generate_fresh_recommendations` reads: `song.get("id")`,
`song.get("language", "")`, `song.get("artistId", "")`,
`song.get("artist", "")` (a missing key is modelled by the default value the
code supplies). -/
structure SlimSong where
  id       : String
  language : String
  artistId : String
  artist   : String
deriving DecidableEq

/-- The boost computation of step 3 of `generate_fresh_recommendations`
(`recommender/engine.py`): start at `1.0`, multiply by `3.0` when the
candidate's `artistId` is a followed artist id, by `1.5` when some favorite
artist's name is a substring of the candidate's artist name, and by `1.5`
when the song id is liked. -/
def song_boost (followed_ids fav_artists liked : List String) (song : SlimSong) : ℚ :=
  let boost : ℚ := 1
  let boost := if song.artistId ∈ followed_ids then boost * 3 else boost
  let boost := if fav_artists.any (fun a => isSubstringOf a.data song.artist.data) then
    boost * (3 / 2) else boost
  if song.id ∈ liked then boost * (3 / 2) else boost

/-- Step 3 of `generate_fresh_recommendations` (filter and boost): walk the
candidate list threading the `seen` set, drop candidates with a falsy id or
already seen, drop candidates whose language misses the (non-empty) language
preference, and score the survivors with `engagement * boost` where
`engagement` is `get_engagement_score` (play count).  Returns the surviving
songs paired with their `_score`. -/
def filter_and_score (pref_langs followed_ids fav_artists liked : List String)
    (engagement : String → ℚ) : List SlimSong → List String → List (SlimSong × ℚ)
  | [], _ => []
  | song :: rest, seen =>
    if song.id = "" ∨ song.id ∈ seen then
      filter_and_score pref_langs followed_ids fav_artists liked engagement rest seen
    else
      let seen' := song.id :: seen
      if !pref_langs.isEmpty ∧ song.language.toLower ∉ pref_langs then
        filter_and_score pref_langs followed_ids fav_artists liked engagement rest seen'
      else
        (song, engagement song.id * song_boost followed_ids fav_artists liked song) ::
          filter_and_score pref_langs followed_ids fav_artists liked engagement rest seen'

/-- The artist-deduplication pass of `build_smart_queue`
(`recommender/engine.py`): walk the suggestions with the artist of the last
queued song (`last_artist`, initially `None` = `none`); a candidate whose
artist equals `last_artist` is deferred, otherwise it is queued and becomes
the new `last_artist`.  Returns `(queue, deferred)`. -/
def smart_queue_pass : List SlimSong → Option String → List SlimSong × List SlimSong
  | [], _ => ([], [])
  | song :: rest, last_artist =>
    if some song.artist = last_artist then
      ((smart_queue_pass rest last_artist).1, song :: (smart_queue_pass rest last_artist).2)
    else
      (song :: (smart_queue_pass rest (some song.artist)).1,
        (smart_queue_pass rest (some song.artist)).2)

/-- `build_smart_queue` from `recommender/engine.py`, starting from the
content-based suggestion list: run the deduplication pass, append the
deferred songs after the main queue, truncate to `queue_size`. -/
def build_smart_queue (suggestions : List SlimSong) (queue_size : Nat) : List SlimSong :=
  let passed := smart_queue_pass suggestions none
  (passed.1 ++ passed.2).take queue_size

/-- A raw provider search result used by the trending fallback: its `"id"`
field plus the rest of the payload spread into the synthesized entry. -/
structure RawSong where
  id     : String
  fields : List (String × JVal)

/-- An entry of the trending list: `{"songId": ..., "score": ..., **spread}`
where the spread is the analytics stats dict or the raw search result. -/
structure ScoredSong where
  songId : String
  score  : Int
  fields : List (String × JVal)

/-- The cache-miss path of `get_trending_songs` (`recommender/engine.py`):
score every analytics counter by `count * 2`, sort descending (stably, as
Python's `list.sort`), keep the top 50 and write them to the trending
cache; if that list is empty, fall back to entries synthesized from the
provider search results with the fixed placeholder score 100.  Either way
the served list is truncated to `limit`. -/
def get_trending_songs_cold (plays : List (String × Int)) (searchResults : List RawSong)
    (limit : Nat) : List ScoredSong × Option (List ScoredSong) :=
  let scored : List ScoredSong :=
    plays.map fun p => ⟨p.1, p.2 * 2, [("count", .jnum p.2)]⟩
  let sorted := scored.mergeSort fun a b => decide (b.score ≤ a.score)
  let result := sorted.take 50
  let written := result
  if result.isEmpty then
    (((searchResults.map fun s => (⟨s.id, 100, s.fields⟩ : ScoredSong))).take limit,
      some written)
  else (result.take limit, some written)

/-- `get_trending_songs` from `recommender/engine.py`.  `cached` is the
`trending/global` generic-cache read (already TTL-checked; `if cached:`
additionally requires a truthy, i.e. non-empty, list).  `plays` is the
`analytics/plays` subtree as `(songId, count)` pairs, `searchResults` the
provider results for the fallback search.  Returns the served list together
with the value written to the trending cache (`none` when the cache hit
short-circuits the recomputation). -/
def get_trending_songs (cached : Option (List ScoredSong)) (plays : List (String × Int))
    (searchResults : List RawSong) (limit : Nat) :
    List ScoredSong × Option (List ScoredSong) :=
  match cached with
  | some c =>
    if !c.isEmpty then (c.take limit, none)
    else get_trending_songs_cold plays searchResults limit
  | none => get_trending_songs_cold plays searchResults limit

/-- Dict lookup returning the string value of a key, or `dflt` when the key
is absent or not a string (`d.get(k, dflt)` at call sites expecting text). -/
def jstrD (v : Option JVal) (dflt : String) : String :=
  match v with
  | some (.jstr s) => s
  | _ => dflt

/-- `elem.get(k, "")` on a supposed dict element of an image/download/artist
array. -/
def jgetStrD (v : JVal) (k : String) (dflt : String) : String :=
  match v with
  | .jobj o => jstrD (o.lookup k) dflt
  | _ => dflt

/-- The suffix of `s` after the first occurrence of `pat`, or `none` when
`pat` does not occur: models `s.split(pat, 1)` having a second part. -/
def splitRemainder (pat : List Char) : List Char → Option (List Char)
  | [] => if pat.isEmpty then some [] else none
  | c :: t =>
    if pat.isPrefixOf (c :: t) then some ((c :: t).drop pat.length)
    else splitRemainder pat t

/-- The early-return guard of `slim_song` (`services/saavn.py`): the input
is already slim when it has a `"title"` key, no `"imageUrl"` key, and an
`"image"` key holding a string. -/
def is_already_slim (song : List (String × JVal)) : Bool :=
  (song.lookup "title").isSome && (song.lookup "imageUrl").isNone &&
    (match song.lookup "image" with
     | some (.jstr _) => true
     | _ => false)

/-- Image selection of `slim_song`: pick from the low-to-high resolution
array by quality tier, pass a flat string through, else empty. -/
def slim_song_image (image_data : Option JVal) (quality : String) : String :=
  match image_data with
  | some (.jarr imgs) =>
    if !imgs.isEmpty then
      if quality = "low" then jgetStrD (imgs.headD (.jobj [])) "url" ""
      else if quality = "high" then jgetStrD (imgs.getLastD (.jobj [])) "url" ""
      else if imgs.length > 1 then jgetStrD (imgs.getD 1 (.jobj [])) "url" ""
      else jgetStrD (imgs.headD (.jobj [])) "url" ""
    else ""
  | some (.jstr s) => s
  | _ => ""

/-- Stream-URL selection of `slim_song`: pick from the low-to-high bitrate
`downloadUrl` array by quality tier, else pass a flat `streamUrl` string
through, else empty. -/
def slim_song_stream (song : List (String × JVal)) (quality : String) : String :=
  match (song.lookup "downloadUrl").getD (.jarr []) with
  | .jarr downloads =>
    if !downloads.isEmpty then
      if quality = "low" then
        if downloads.length > 1 then jgetStrD (downloads.getD 1 (.jobj [])) "url" ""
        else jgetStrD (downloads.headD (.jobj [])) "url" ""
      else if quality = "high" then jgetStrD (downloads.getLastD (.jobj [])) "url" ""
      else if downloads.length > 2 then jgetStrD (downloads.getD 2 (.jobj [])) "url" ""
      else jgetStrD (downloads.getLastD (.jobj [])) "url" ""
    else slim_song_stream_flat song
  | _ => slim_song_stream_flat song
where
  /-- The `elif isinstance(song.get("streamUrl"), str)` fallback. -/
  slim_song_stream_flat (song : List (String × JVal)) : String :=
    match song.lookup "streamUrl" with
    | some (.jstr s) => s
    | _ => ""

/-- The CDN rewrite of `slim_song`: discard stream URLs that are image
files, and rebase any `saavncdn.com` URL onto `aac.saavncdn.com`. -/
def slim_song_fix_cdn (stream_url : String) : String :=
  if stream_url ≠ "" ∧ isSubstringOf "saavncdn.com".data stream_url.data then
    if stream_url.endsWith ".jpg" || stream_url.endsWith ".png" then ""
    else
      match splitRemainder "saavncdn.com/".data stream_url.data with
      | some rest => "https://aac.saavncdn.com/" ++ String.mk rest
      | none => stream_url
  else stream_url

/-- `slim_song` from `services/saavn.py`.  `unescape` stands for the
standard-library `html.unescape` collaborator (an arbitrary pure string
function).  Dict-valued Python expressions become association lists; the
output preserves the key order of the literal the code builds. -/
def slim_song (unescape : String → String) (song : List (String × JVal))
    (quality : String) : List (String × JVal) :=
  if is_already_slim song then song
  else
    let img0 := slim_song_image (song.lookup "image") quality
    let img :=
      if img0 ≠ "" ∧ quality = "low" then img0.replace "500x500" "150x150"
      else if img0 ≠ "" ∧ (quality = "medium" ∨ quality = "high") then
        img0.replace "150x150" "500x500"
      else img0
    let stream_url := slim_song_fix_cdn (slim_song_stream song quality)
    let artist_name :=
      match song.lookup "artists" with
      | some (.jobj artist_data) =>
        match artist_data.lookup "primary" with
        | some (.jarr primary) =>
          String.intercalate ", " (primary.map fun a => jgetStrD a "name" "")
        | some _ => ""
        | none =>
          match song.lookup "artist" with
          | some (.jstr s) => s
          | _ => "Unknown Artist"
      | _ =>
        match song.lookup "artist" with
        | some (.jstr s) => s
        | _ => "Unknown Artist"
    let album_pair :=
      match (song.lookup "album").getD (.jobj []) with
      | .jobj album_raw => (jstrD (album_raw.lookup "name") "", jstrD (album_raw.lookup "id") "")
      | .jstr s => (s, jstrD (song.lookup "albumId") "")
      | _ => ("", "")
    let name_val := jstrD (song.lookup "name") ""
    let title_source := if name_val ≠ "" then name_val else jstrD (song.lookup "title") ""
    [("id", .jstr (jstrD (song.lookup "id") "")),
     ("title", .jstr (unescape title_source)),
     ("artist", .jstr (unescape artist_name)),
     ("album", .jstr (unescape album_pair.1)),
     ("albumId", .jstr album_pair.2),
     ("image", .jstr img),
     ("duration", (song.lookup "duration").getD (.jnum 0)),
     ("language", (song.lookup "language").getD (.jstr "")),
     ("year", (song.lookup "year").getD (.jstr "")),
     ("streamUrl", .jstr stream_url)]

/-- C1: `get_recommendations` serves a stored snapshot verbatim (leaving the
store untouched) exactly when not forced and the snapshot is younger than
1800 seconds; in every other case it returns the freshly generated bundle
stamped with the current time and overwrites the stored snapshot with it
wholesale, regardless of what was stored before. -/
theorem get_recommendations_snapshot_policy {α : Type} (now : Int)
    (stored : Option (RecBundle α)) (fresh : RecBundle α) :
    (∀ s, stored = some s → now - s.updatedAt < 1800 →
      get_recommendations now stored fresh false = (s, stored)) ∧
    (∀ force_refresh : Bool,
      (force_refresh = true ∨ stored = none ∨
        ∀ s, stored = some s → ¬ now - s.updatedAt < 1800) →
      get_recommendations now stored fresh force_refresh =
        (store_recommendations now fresh, some (store_recommendations now fresh))) := by
  constructor
  · intro s hs hfresh
    subst hs
    simp [get_recommendations, if_pos hfresh]
  · intro force_refresh h
    rcases h with h | h | h
    · subst h
      cases stored <;> simp [get_recommendations]
    · subst h
      simp [get_recommendations]
    · cases force_refresh with
      | true => cases stored <;> simp [get_recommendations]
      | false =>
        cases stored with
        | none => simp [get_recommendations]
        | some s => simp [get_recommendations, if_neg (h s rfl)]

/-- Witness for C1: a 900-second-old snapshot is served verbatim at
`now = 1000`; the same snapshot at `now = 9999` is stale, so the fresh
bundle, re-stamped to 9999, is returned and stored. -/
theorem get_recommendations_snapshot_policy_witness :
    get_recommendations (1000 : Int) (some (⟨0, 900⟩ : RecBundle Nat)) ⟨1, 7⟩ false =
      (⟨0, 900⟩, some ⟨0, 900⟩) ∧
    get_recommendations (9999 : Int) (some (⟨0, 900⟩ : RecBundle Nat)) ⟨1, 7⟩ false =
      (⟨1, 9999⟩, some ⟨1, 9999⟩) := by
  constructor
  · exact (get_recommendations_snapshot_policy 1000 (some ⟨0, 900⟩) ⟨1, 7⟩).1
      ⟨0, 900⟩ rfl (by decide)
  · exact (get_recommendations_snapshot_policy 9999 (some ⟨0, 900⟩) ⟨1, 7⟩).2
      false (Or.inr (Or.inr (by intro s hs; cases hs; decide)))

/-- C2: when the stored query-cache entry is fresh and lists at least one id
but every listed id rehydrates to nothing live (absent from the entity cache
or falsy there), `cache_get` reports a full cache miss (`none`), not a
successful empty result. -/
theorem cache_get_all_or_nothing (now : Int)
    (searchIndex : String → Option QueryCacheEntry) (songs : String → Option JVal)
    (query : String) (ttl : Int) (entry : QueryCacheEntry)
    (hidx : searchIndex (normalize_query query) = some entry)
    (hfresh : now - entry.timestamp < ttl)
    (hne : entry.song_ids ≠ [])
    (hdead : ∀ sid ∈ entry.song_ids, ∀ v, songs sid = some v → jTruthy v = false) :
    cache_get now searchIndex songs query ttl = none := by
  unfold cache_get
  rw [hidx]
  simp only [if_pos hfresh]
  have hzero : (entry.song_ids.filterMap fun sid =>
      match songs sid with
      | some song_meta => if jTruthy song_meta then some song_meta else none
      | none => none) = [] := by
    rw [List.filterMap_eq_nil_iff]
    intro sid hsid
    cases hv : songs sid with
    | none => simp
    | some v => simp [hdead sid hsid v hv]
  simp [hne, hzero]

/-- Witness for C2: a fresh entry listing `s1` and `s2` where `s1` is absent
from the entity cache and `s2` is stored as an empty (falsy) dict. -/
theorem cache_get_all_or_nothing_witness :
    cache_get 10
      (fun k => if k = "q" then some ⟨["s1", "s2"], 0⟩ else none)
      (fun sid => if sid = "s2" then some (.jobj []) else none)
      "q" 3600 = none := by
  refine cache_get_all_or_nothing 10 _ _ "q" 3600 ⟨["s1", "s2"], 0⟩ ?_ (by decide)
    (by decide) ?_
  · rfl
  · intro sid hsid v hv
    fin_cases hsid
    · simp at hv
    · simp at hv
      cases hv
      rfl

/-- C9: when the stored query-cache entry is fresh and its id list is empty,
`cache_get` returns a successful empty list, not a miss; the all-or-nothing
policy of C2 applies only to non-empty id lists. -/
theorem cache_get_empty_ids_success (now : Int)
    (searchIndex : String → Option QueryCacheEntry) (songs : String → Option JVal)
    (query : String) (ttl : Int) (entry : QueryCacheEntry)
    (hidx : searchIndex (normalize_query query) = some entry)
    (hfresh : now - entry.timestamp < ttl)
    (hempty : entry.song_ids = []) :
    cache_get now searchIndex songs query ttl = some [] := by
  unfold cache_get
  rw [hidx]
  simp [if_pos hfresh, hempty]

/-- Witness for C9: a fresh entry with an empty id list is an empty hit. -/
theorem cache_get_empty_ids_success_witness :
    cache_get 10 (fun k => if k = "q" then some ⟨[], 0⟩ else none)
      (fun _ => none) "q" 3600 = some [] :=
  cache_get_empty_ids_success 10 _ _ "q" 3600 ⟨[], 0⟩ rfl (by decide) rfl

/-- C5: freshness is a strict comparison of the age against the TTL in both
the query cache and the generic cache: an entry of age `ttl - 1` is served
(a hit), an entry of age exactly `ttl` is rejected (a miss). -/
theorem ttl_strict_boundary :
    (∀ (now : Int) (searchIndex : String → Option QueryCacheEntry)
       (songs : String → Option JVal) (query : String) (ttl : Int)
       (entry : QueryCacheEntry),
       searchIndex (normalize_query query) = some entry →
       now - entry.timestamp = ttl - 1 → entry.song_ids = [] →
       cache_get now searchIndex songs query ttl = some []) ∧
    (∀ (now : Int) (searchIndex : String → Option QueryCacheEntry)
       (songs : String → Option JVal) (query : String) (ttl : Int)
       (entry : QueryCacheEntry),
       searchIndex (normalize_query query) = some entry →
       now - entry.timestamp = ttl →
       cache_get now searchIndex songs query ttl = none) ∧
    (∀ (α : Type) (now : Int) (node : String → Option (GenericCacheEntry α))
       (key : String) (ttl : Int) (entry : GenericCacheEntry α),
       node (generic_safe_key key) = some entry →
       now - entry.timestamp = ttl - 1 →
       generic_cache_get now node key ttl = some entry.results) ∧
    (∀ (α : Type) (now : Int) (node : String → Option (GenericCacheEntry α))
       (key : String) (ttl : Int) (entry : GenericCacheEntry α),
       node (generic_safe_key key) = some entry →
       now - entry.timestamp = ttl →
       generic_cache_get now node key ttl = none) := by
  refine ⟨?_, ?_, ?_, ?_⟩
  · intro now searchIndex songs query ttl entry hidx hage hempty
    exact cache_get_empty_ids_success now searchIndex songs query ttl entry hidx
      (by omega) hempty
  · intro now searchIndex songs query ttl entry hidx hage
    unfold cache_get
    rw [hidx]
    simp only [if_neg (by omega : ¬ now - entry.timestamp < ttl)]
  · intro α now node key ttl entry hnode hage
    unfold generic_cache_get
    rw [hnode]
    simp only [if_pos (by omega : now - entry.timestamp < ttl)]
  · intro α now node key ttl entry hnode hage
    unfold generic_cache_get
    rw [hnode]
    simp only [if_neg (by omega : ¬ now - entry.timestamp < ttl)]

/-- Witness for C5: with `ttl = 3600`, a 3599-second-old entry hits and a
3600-second-old entry misses, in both caches. -/
theorem ttl_strict_boundary_witness :
    cache_get 3599 (fun k => if k = "q" then some ⟨[], 0⟩ else none)
      (fun _ => none) "q" 3600 = some [] ∧
    cache_get 3600 (fun k => if k = "q" then some ⟨[], 0⟩ else none)
      (fun _ => none) "q" 3600 = none ∧
    generic_cache_get 3599
      (fun k => if k = "g" then some (⟨42, 0⟩ : GenericCacheEntry Nat) else none)
      "g" 3600 = some 42 ∧
    generic_cache_get 3600
      (fun k => if k = "g" then some (⟨42, 0⟩ : GenericCacheEntry Nat) else none)
      "g" 3600 = none := by
  refine ⟨?_, ?_, ?_, ?_⟩
  · exact ttl_strict_boundary.1 3599 _ _ "q" 3600 ⟨[], 0⟩ rfl (by decide) rfl
  · exact ttl_strict_boundary.2.1 3600 _ _ "q" 3600 ⟨[], 0⟩ rfl (by decide)
  · exact ttl_strict_boundary.2.2.1 Nat 3599 _ "g" 3600 ⟨42, 0⟩ rfl (by decide)
  · exact ttl_strict_boundary.2.2.2 Nat 3600 _ "g" 3600 ⟨42, 0⟩ rfl (by decide)

/-- C7: every prefix key written to the prefix index by
`index_song_for_search` has length at least 2; single-character prefixes
never appear as index keys, for any song id, title and artist text. -/
theorem index_song_for_search_min_key_length (song_id title artist : String) :
    ∀ w ∈ index_song_for_search song_id title artist, 2 ≤ w.1.length := by
  intro w hw
  unfold index_song_for_search at hw
  simp only [List.mem_map, List.mem_filter] at hw
  obtain ⟨p, ⟨_, hlen⟩, rfl⟩ := hw
  simp only [decide_eq_true_eq, Bool.not_eq_eq_eq_not, Bool.not_true,
    decide_eq_false_iff_not, Nat.not_lt] at hlen
  exact hlen

/-- Witness for C7: the key `ar` written while indexing the title `arijit`
has length 2 (and is indeed among the written keys). -/
theorem index_song_for_search_min_key_length_witness :
    2 ≤ (['a', 'r'], "s1").1.length :=
  index_song_for_search_min_key_length "s1" "arijit" "x" (['a', 'r'], "s1") (by decide)

/-- C3: in the filter-and-score step, a candidate that is liked, whose
`artistId` is followed, and whose artist name matches a favorite-history
artist gets boost `3.0 * 1.5 * 1.5 = 6.75 = 27/4`, and the score attached
to it by the loop is its engagement score times that boost. -/
theorem boost_composition (followed_ids fav_artists liked : List String)
    (song : SlimSong)
    (hfollow : song.artistId ∈ followed_ids)
    (hfav : fav_artists.any (fun a => isSubstringOf a.data song.artist.data) = true)
    (hliked : song.id ∈ liked) :
    song_boost followed_ids fav_artists liked song = 27 / 4 ∧
    ∀ (pref_langs : List String) (engagement : String → ℚ)
      (rest : List SlimSong) (seen : List String),
      song.id ≠ "" → song.id ∉ seen →
      (pref_langs = [] ∨ song.language.toLower ∈ pref_langs) →
      filter_and_score pref_langs followed_ids fav_artists liked engagement
          (song :: rest) seen =
        (song, engagement song.id * (27 / 4)) ::
          filter_and_score pref_langs followed_ids fav_artists liked engagement
            rest (song.id :: seen) := by
  have hboost : song_boost followed_ids fav_artists liked song = 27 / 4 := by
    unfold song_boost
    simp only [hfollow, hfav, hliked, if_true]
    norm_num
  refine ⟨hboost, ?_⟩
  intro pref_langs engagement rest seen hid hseen hlang
  have hlang2 : ¬ (!pref_langs.isEmpty ∧ song.language.toLower ∉ pref_langs) := by
    rcases hlang with h | h
    · subst h
      simp
    · tauto
  rw [filter_and_score, if_neg (by tauto)]
  dsimp only
  rw [if_neg hlang2, hboost]

/-- Witness for C3: a liked song by followed artist `ar1` whose artist name
contains the favorite artist `Ari` is scored `engagement * 27/4`. -/
theorem boost_composition_witness :
    song_boost ["ar1"] ["Ari"] ["s9"] ⟨"s9", "hindi", "ar1", "Arijit Singh"⟩ = 27 / 4 ∧
    filter_and_score [] ["ar1"] ["Ari"] ["s9"] (fun _ => 2)
        [⟨"s9", "hindi", "ar1", "Arijit Singh"⟩] [] =
      [(⟨"s9", "hindi", "ar1", "Arijit Singh"⟩, 2 * (27 / 4))] := by
  have h := boost_composition ["ar1"] ["Ari"] ["s9"]
    ⟨"s9", "hindi", "ar1", "Arijit Singh"⟩ (by decide) (by decide) (by decide)
  refine ⟨h.1, ?_⟩
  rw [h.2 [] (fun _ => 2) [] [] (by decide) (by decide) (Or.inl rfl)]
  rfl

/-- The deferred list collects candidates in their original relative order:
it is a sublist of the suggestion list. -/
theorem smart_queue_pass_deferred_sublist (cands : List SlimSong) (last : Option String) :
    ((smart_queue_pass cands last).2).Sublist cands := by
  induction cands generalizing last with
  | nil => simp [smart_queue_pass]
  | cons song rest ih =>
    by_cases h : some song.artist = last
    · simp only [smart_queue_pass, if_pos h]
      exact (ih last).cons₂ song
    · simp only [smart_queue_pass, if_neg h]
      exact (ih (some song.artist)).cons song

/-- The pass loses and invents nothing: main queue plus deferred list is a
permutation of the suggestions. -/
theorem smart_queue_pass_perm (cands : List SlimSong) (last : Option String) :
    ((smart_queue_pass cands last).1 ++ (smart_queue_pass cands last).2).Perm cands := by
  induction cands generalizing last with
  | nil => simp [smart_queue_pass]
  | cons song rest ih =>
    by_cases h : some song.artist = last
    · simp only [smart_queue_pass, if_pos h]
      exact List.perm_middle.trans ((ih last).cons song)
    · simp only [smart_queue_pass, if_neg h, List.cons_append]
      exact (ih (some song.artist)).cons song

/-- No two adjacent songs of the main queue share an artist, and the queue
head never matches the incoming `last_artist`. -/
theorem smart_queue_pass_chain (cands : List SlimSong) (last : Option String) :
    ((smart_queue_pass cands last).1).Chain' (fun a b => a.artist ≠ b.artist) ∧
    ∀ h, ((smart_queue_pass cands last).1).head? = some h → some h.artist ≠ last := by
  induction cands generalizing last with
  | nil => simp [smart_queue_pass]
  | cons song rest ih =>
    by_cases hc : some song.artist = last
    · simp only [smart_queue_pass, if_pos hc]
      exact ih last
    · simp only [smart_queue_pass, if_neg hc]
      refine ⟨?_, ?_⟩
      · rw [List.chain'_cons']
        refine ⟨?_, (ih (some song.artist)).1⟩
        intro y hy
        have hne := (ih (some song.artist)).2 y hy
        intro he
        exact hne (by rw [he])
      · intro h hh
        rw [List.head?_cons, Option.some_inj] at hh
        subst hh
        exact hc

/-- C4: on the candidate list `[A1(artistX), A2(artistX), A3(artistY)]` the
smart queue is exactly `[A1, A3, A2]`; in general the result is the main
pass followed by the deferred candidates truncated to the requested size,
the deferred candidates keep their original relative order (sublist), the
two passes together permute the candidates, and the main pass never repeats
an artist in adjacent positions. -/
theorem build_smart_queue_adjacency :
    (build_smart_queue
        [⟨"A1", "", "", "X"⟩, ⟨"A2", "", "", "X"⟩, ⟨"A3", "", "", "Y"⟩] 15 =
      [⟨"A1", "", "", "X"⟩, ⟨"A3", "", "", "Y"⟩, ⟨"A2", "", "", "X"⟩]) ∧
    (∀ (cands : List SlimSong) (size : Nat),
      build_smart_queue cands size =
        ((smart_queue_pass cands none).1 ++ (smart_queue_pass cands none).2).take size) ∧
    (∀ cands : List SlimSong, ((smart_queue_pass cands none).2).Sublist cands) ∧
    (∀ cands : List SlimSong,
      ((smart_queue_pass cands none).1 ++ (smart_queue_pass cands none).2).Perm cands) ∧
    (∀ cands : List SlimSong,
      ((smart_queue_pass cands none).1).Chain' fun a b => a.artist ≠ b.artist) :=
  ⟨by decide, fun _ _ => rfl, fun c => smart_queue_pass_deferred_sublist c none,
   fun c => smart_queue_pass_perm c none, fun c => (smart_queue_pass_chain c none).1⟩

/-- C8: with no analytics counters and no usable trending cache,
`get_trending_songs` serves entries synthesized from the provider search,
every one carrying the fixed placeholder score 100, and at most `limit` of
them. -/
theorem get_trending_songs_cold_start (searchResults : List RawSong) (limit : Nat) :
    (get_trending_songs none [] searchResults limit).1 =
      (searchResults.map fun s => (⟨s.id, 100, s.fields⟩ : ScoredSong)).take limit ∧
    (get_trending_songs none [] searchResults limit).1.length ≤ limit ∧
    ∀ e ∈ (get_trending_songs none [] searchResults limit).1, e.score = 100 := by
  have h1 : (get_trending_songs none [] searchResults limit).1 =
      (searchResults.map fun s => (⟨s.id, 100, s.fields⟩ : ScoredSong)).take limit := by
    simp [get_trending_songs, get_trending_songs_cold]
  refine ⟨h1, ?_, ?_⟩
  · rw [h1]
    exact List.length_take_le limit _
  · intro e he
    rw [h1] at he
    have hmem := List.take_subset limit _ he
    rw [List.mem_map] at hmem
    obtain ⟨s, _, hs⟩ := hmem
    rw [← hs]

/-- Witness for C8: a single provider result yields the single synthesized
entry with score 100. -/
theorem get_trending_songs_cold_start_witness :
    (get_trending_songs none [] [⟨"t1", []⟩] 10).1 = [⟨"t1", 100, []⟩] ∧
    (⟨"t1", 100, []⟩ : ScoredSong).score = 100 := by
  have h := get_trending_songs_cold_start [⟨"t1", []⟩] 10
  exact ⟨h.1.trans rfl, h.2.2 ⟨"t1", 100, []⟩ (by rw [h.1]; exact List.Mem.head _)⟩

/-- C10: `slim_song` is the identity on already-slim dicts: any dict with a
`"title"` key, an `"image"` key holding a string, and no `"imageUrl"` key is
returned unchanged at every quality tier. -/
theorem slim_song_idempotent_on_slim (unescape : String → String)
    (song : List (String × JVal)) (quality : String)
    (htitle : (song.lookup "title").isSome = true)
    (hnoimgurl : song.lookup "imageUrl" = none)
    (himg : ∃ s, song.lookup "image" = some (.jstr s)) :
    slim_song unescape song quality = song := by
  have hslim : is_already_slim song = true := by
    unfold is_already_slim
    obtain ⟨s, hs⟩ := himg
    rw [htitle, hnoimgurl, hs]
    rfl
  unfold slim_song
  rw [if_pos hslim]

/-- Witness for C10: a two-key slim dict passes through `slim_song`
unchanged at quality `high`. -/
theorem slim_song_idempotent_on_slim_witness :
    slim_song (fun s => s) [("title", .jstr "T"), ("image", .jstr "u")] "high" =
      [("title", .jstr "T"), ("image", .jstr "u")] :=
  slim_song_idempotent_on_slim (fun s => s)
    [("title", .jstr "T"), ("image", .jstr "u")] "high" rfl rfl ⟨"u", rfl⟩

/-- Characters with equal codepoints are equal. -/
theorem char_toNat_inj {c d : Char} (h : c.toNat = d.toNat) : c = d := by
  have hc := Char.ofNat_toNat c
  rw [h, Char.ofNat_toNat] at hc
  exact hc.symm

/-- The head surviving `dropWhile` falsifies the predicate. -/
theorem head_dropWhile_not (p : Char → Bool) (l : List Char) :
    ∀ c, (l.dropWhile p).head? = some c → p c = false := by
  induction l with
  | nil => simp
  | cons a t ih =>
    intro c hc
    rw [List.dropWhile_cons] at hc
    by_cases h : p a
    · rw [if_pos h] at hc
      exact ih c hc
    · rw [if_neg h] at hc
      rw [List.head?_cons, Option.some_inj] at hc
      subst hc
      exact Bool.eq_false_iff.mpr h

/-- A stripped string does not end in Python whitespace. -/
theorem pyStrip_getLast_not_ws (l : List Char) :
    ∀ c, (pyStrip l).getLast? = some c → pyIsWhitespace c = false := by
  intro c hc
  unfold pyStrip at hc
  rw [List.getLast?_reverse] at hc
  exact head_dropWhile_not pyIsWhitespace _ c hc

